import Mathlib

/-!
Verification of the `tabs-motion` component (src/src/tabs-motion/index.js).

We shallowly embed the pure logic of the component:
* the `$helper` style-variant resolver (a pure function of orientation,
  text direction and a mapping of variant values, using JS `||` semantics);
* the accent-indicator geometry computation performed in the layout effect;
* key derivation (`child.key || String(index)`, with `React.Children.map`
  invoking the callback on falsy children but dropping `null` results from
  the returned array, so `tabKeys` is a compacted list);
* the rendering of tab buttons and tab panels (ids, `aria-selected`,
  `aria-controls`, `tabindex`, `aria-expanded`, `hidden`);
* the `onKeyDown` handler (keyCodes 37/39, wrap-around via the DOM sibling
  checks, optional `onSelect` under `keyboardActivation === 'automatic'`).

JS values that can be `undefined` are modelled with `Option`; template-literal
interpolation of `undefined` yields the string "undefined" as in JS.
-/

namespace TabsMotion

/-- A JavaScript value as it can appear in the `$helper` variant mappings:
`undefined` (a missing property), `null`, a string, or a number.  Only
truthiness matters for `||`. -/
inductive JsVal where
  | undef : JsVal
  | jsNull : JsVal
  | str : String → JsVal
  | num : Int → JsVal
deriving DecidableEq

/-- JS truthiness for the values above: `undefined`, `null`, `""` and `0`
are falsy; every other string or number is truthy. -/
def JsVal.truthy : JsVal → Bool
  | .undef => false
  | .jsNull => false
  | .str s => !(s == "")
  | .num n => !(n == 0)

/-- JS `a || b`: `a` when `a` is truthy, otherwise `b`. -/
def jsOr (a b : JsVal) : JsVal := if a.truthy then a else b

/-- The mapping of named variants passed to the `$helper` callback
(`results` in the source).  A missing property is `JsVal.undef`. -/
structure VariantMap where
  hltr : JsVal
  hrtl : JsVal
  vltr : JsVal
  vrtl : JsVal
  h : JsVal
  v : JsVal
  ltr : JsVal
  rtl : JsVal
deriving DecidableEq

/-- The `helper` callback of `Tabs` (index.js lines 172-189): branches on
`orientation === ORIENTATION.horizontal/vertical` and
`theme.direction !== 'rtl'`, and in each branch evaluates a JS `||` chain
ending in `null`. -/
def helper (orientation direction : String) (results : VariantMap) : JsVal :=
  if orientation == "horizontal" && !(direction == "rtl") then
    jsOr results.hltr (jsOr results.h (jsOr results.ltr .jsNull))
  else if orientation == "vertical" && !(direction == "rtl") then
    jsOr results.vltr (jsOr results.v (jsOr results.ltr .jsNull))
  else if orientation == "horizontal" && direction == "rtl" then
    jsOr results.hrtl (jsOr results.h (jsOr results.rtl .jsNull))
  else if orientation == "vertical" && direction == "rtl" then
    jsOr results.vrtl (jsOr results.v (jsOr results.rtl .jsNull))
  else .jsNull

/-- The precedence chain of variant entries consulted for a given
orientation/direction pair: orientation+direction-specific entry first, then
the orientation-only entry, then the direction-only entry.  Invalid
orientations consult nothing. -/
def precedenceChain (orientation direction : String) (results : VariantMap) :
    List JsVal :=
  if orientation == "horizontal" && !(direction == "rtl") then
    [results.hltr, results.h, results.ltr]
  else if orientation == "vertical" && !(direction == "rtl") then
    [results.vltr, results.v, results.ltr]
  else if orientation == "horizontal" && direction == "rtl" then
    [results.hrtl, results.h, results.rtl]
  else if orientation == "vertical" && direction == "rtl" then
    [results.vrtl, results.v, results.rtl]
  else []

/-- Modelled from the claim wording: return the first DEFINED (not
`undefined`) value of a chain, else `null`. -/
def firstDefined : List JsVal → JsVal
  | [] => .jsNull
  | x :: rest => if x == .undef then firstDefined rest else x

/-- Return the first TRUTHY value of a chain, else `null` — the actual JS
`||` fallback semantics. -/
def firstTruthy : List JsVal → JsVal
  | [] => .jsNull
  | x :: rest => if x.truthy then x else firstTruthy rest

/-- The resolver the claim describes, word for word: first defined value in
the precedence order, `null` when none applies. -/
def helperFirstDefined (orientation direction : String) (results : VariantMap) :
    JsVal :=
  firstDefined (precedenceChain orientation direction results)

/-- A variant map whose orientation+direction-specific entry is defined but
falsy (the empty string) while the orientation-only entry is truthy. -/
def falsySpecificMap : VariantMap :=
  ⟨.str "", .undef, .undef, .undef, .str "x", .undef, .undef, .undef⟩

-- Accent indicator geometry

/-- The DOM measurements of the active tab element (and its parent) read by
the accent layout effect. -/
structure TabMeasurements where
  clientWidth : Int
  clientHeight : Int
  offsetLeft : Int
  offsetTop : Int
  parentScrollWidth : Int
deriving DecidableEq

/-- The `accentLayout` state of `Tabs`. -/
structure AccentLayout where
  length : Int
  distance : Int
deriving DecidableEq

/-- The initial `accentLayout` state (index.js lines 125-128). -/
def initialAccentLayout : AccentLayout := ⟨0, 0⟩

/-- The geometry computed by the accent layout effect when the active tab ref
is resolvable (index.js lines 131-145). -/
def computeAccentLayout (orientation direction : String)
    (m : TabMeasurements) : AccentLayout :=
  { length :=
      if orientation == "horizontal" then m.clientWidth else m.clientHeight
    distance :=
      if orientation == "horizontal" then
        if !(direction == "rtl") then m.offsetLeft
        else -1 * (m.parentScrollWidth - m.offsetLeft - m.clientWidth)
      else m.offsetTop }

/-- The accent layout effect (index.js lines 129-147): when the active tab
ref is not resolvable (`activeTabRef.current` falsy) the state setter is not
called and the previous state is kept; otherwise the measured geometry
replaces it. -/
def accentEffect (orientation direction : String)
    (activeTabRef : Option TabMeasurements) (prev : AccentLayout) :
    AccentLayout :=
  match activeTabRef with
  | none => prev
  | some m => computeAccentLayout orientation direction m

-- Children, key derivation, rendering

/-- A truthy child element passed to `Tabs`: a React element whose `key`
prop is a string or `null`/absent (`none`).  Title and content are opaque
and irrelevant to the verified logic. -/
structure Child where
  key : Option String
deriving DecidableEq

/-- `child.key || String(index)`: the explicit key when it is truthy (a
non-empty string), otherwise the decimal string of the child's index. -/
def childKey (c : Child) (index : Nat) : String :=
  match c.key with
  | some s => if s == "" then toString index else s
  | none => toString index

/-- `getTabId` (index.js line 35). -/
def getTabId (key : String) : String := "tab_" ++ key

/-- `getTabPanelId` (index.js line 36). -/
def getTabPanelId (key : String) : String := "tabpanel_" ++ key

/-- The `React.Children.map` pass building `tabKeys` (index.js lines
201-203), starting at child index `i`.  The callback runs on every child —
falsy ones included, so the index counts them — but `React.Children.map`
drops `null` callback results from the returned array, so the result is the
compacted list of the truthy children's resolved keys. -/
def keysAux : Nat → List (Option Child) → List String
  | _, [] => []
  | i, none :: rest => keysAux (i + 1) rest
  | i, some c :: rest => childKey c i :: keysAux (i + 1) rest

/-- The `tabKeys` array of `Tabs`. -/
def tabKeys (children : List (Option Child)) : List String :=
  keysAux 0 children

/-- A rendered tab panel (index.js lines 283-298). -/
structure Panel where
  id : String
  ariaExpanded : Bool
  hidden : Bool
deriving DecidableEq

/-- The panel rendered for a truthy child whose resolved key is `key`. -/
def mkPanel (activeTabKey key : String) : Panel :=
  { id := getTabPanelId key
    ariaExpanded := key == activeTabKey
    hidden := !(key == activeTabKey) }

/-- The panel-rendering `React.Children.map` pass (index.js lines 283-298),
starting at child index `i`: falsy children render nothing, a truthy child
renders a panel keyed by `child.key || String(index)`. -/
def panelsAux (activeTabKey : String) : Nat → List (Option Child) → List Panel
  | _, [] => []
  | i, none :: rest => panelsAux activeTabKey (i + 1) rest
  | i, some c :: rest =>
      mkPanel activeTabKey (childKey c i) :: panelsAux activeTabKey (i + 1) rest

/-- All panels rendered by `Tabs`. -/
def renderPanels (activeTabKey : String) (children : List (Option Child)) :
    List Panel :=
  panelsAux activeTabKey 0 children

/-- JS template-literal interpolation of a possibly-`undefined` string. -/
def jsStr : Option String → String
  | some s => s
  | none => "undefined"

/-- A rendered tab button (index.js lines 212-272).  `key` is the JS value
of `tabKeys[index]`, which is `undefined` (`none`) when the lookup runs past
the end of the compacted `tabKeys` array. -/
structure RenderedTab where
  key : Option String
  id : String
  ariaSelected : Bool
  tabIndex : String
  ariaControls : String
deriving DecidableEq

/-- The tab button rendered for a truthy child, from the JS value of
`tabKeys[index]`.  `key === activeTabKey` is false when `key` is
`undefined`; ids interpolate `undefined` as the string "undefined". -/
def mkTab (activeTabKey : String) (key : Option String) : RenderedTab :=
  let isActive :=
    match key with
    | some s => s == activeTabKey
    | none => false
  { key := key
    id := getTabId (jsStr key)
    ariaSelected := isActive
    tabIndex := if isActive then "0" else "-1"
    ariaControls := getTabPanelId (jsStr key) }

/-- The tab-rendering `React.Children.map` pass (index.js lines 208-273),
starting at child index `i` and looking each truthy child's key up as
`tabKeys[index]` in the compacted `tks` array. -/
def tabsAux (activeTabKey : String) (tks : List String) :
    Nat → List (Option Child) → List RenderedTab
  | _, [] => []
  | i, none :: rest => tabsAux activeTabKey tks (i + 1) rest
  | i, some _ :: rest =>
      mkTab activeTabKey tks[i]? :: tabsAux activeTabKey tks (i + 1) rest

/-- All tab buttons rendered by `Tabs`. -/
def renderTabs (activeTabKey : String) (children : List (Option Child)) :
    List RenderedTab :=
  tabsAux activeTabKey (tabKeys children) 0 children

-- Keyboard navigation (index.js lines 218-263)

/-- Outcome of one `onKeyDown` event: which tab-list child node received
`.focus()` (if any), and the `selectedTabKey` value `onSelect` was called
with (if it was called; the handler calls it at most once, and the value is
the JS lookup `tabKeys[nextActiveIndex]`, possibly `undefined`). -/
structure KeyDownResult where
  focusedIndex : Option Nat
  selected : Option (Option String)
deriving DecidableEq

/-- The `nextActiveIndex` computation for a key press on the tab at child
index `i` among `numChildren` children, all truthy.  In the rendered DOM
the tab list holds the buttons in child order followed by the accent
element, so for keyCode 37 `event.target.previousSibling` exists iff
`0 < i`, and for keyCode 39 `event.target.nextSibling` always exists and
differs from `parentNode.lastElementChild` (the accent) iff another button
follows, i.e. `i + 1 < numChildren`. -/
def nextActiveIndex (keyCode numChildren i : Nat) : Nat :=
  if keyCode == 37 then
    if 0 < i then i - 1 else numChildren - 1
  else
    if i + 1 < numChildren then i + 1 else 0

/-- The `onKeyDown` handler for a key press on the tab at child index `i`,
with all children truthy (`cs`).  Only keyCodes 37 and 39 are handled; the
handler then focuses `parentNode.childNodes[nextActiveIndex]` and, when
`keyboardActivation === 'automatic'`, calls
`onSelect({selectedTabKey: tabKeys[nextActiveIndex]})`. -/
def keydown (keyboardActivation : String) (cs : List Child) (i keyCode : Nat) :
    KeyDownResult :=
  if keyCode == 37 || keyCode == 39 then
    let j := nextActiveIndex keyCode cs.length i
    { focusedIndex := some j
      selected :=
        if keyboardActivation == "automatic" then
          some (tabKeys (cs.map some))[j]?
        else none }
  else
    { focusedIndex := none, selected := none }

-- Concrete inputs used in witnesses and counterexamples

/-- A single tab child with explicit key "a". -/
def singleChild : Child := ⟨some "a"⟩

/-- Two tab children with explicit keys "a" and "b". -/
def twoChildren : List Child := [⟨some "a"⟩, ⟨some "b"⟩]

/-- Three tab children with explicit keys "0", "1", "2" (the spec's
example). -/
def threeChildren : List Child := [⟨some "0"⟩, ⟨some "1"⟩, ⟨some "2"⟩]

/-- A child with no explicit key. -/
def keylessChild : Child := ⟨none⟩

/-- A falsy child followed by a keyless truthy child. -/
def mixedChildren : List (Option Child) := [none, some keylessChild]

/-- Two keyless truthy children. -/
def twoKeyless : List Child := [⟨none⟩, ⟨none⟩]

end TabsMotion

namespace TabsMotion

-- Helper lemmas

theorem keysAux_map_some_getElem? (cs : List Child) :
    ∀ (i j : Nat),
      (keysAux i (cs.map some))[j]? =
        cs[j]?.map (fun c => childKey c (i + j)) := by
  induction cs with
  | nil => intro i j; simp [keysAux]
  | cons c t ih =>
    intro i j
    cases j with
    | zero => simp [keysAux]
    | succ j =>
      have := ih (i + 1) j
      simp only [List.map_cons, keysAux, List.getElem?_cons_succ, this,
        List.getElem?_cons_succ]
      have harith : i + 1 + j = i + (j + 1) := by omega
      rw [harith]

theorem keysAux_map_some_length (cs : List Child) :
    ∀ i : Nat, (keysAux i (cs.map some)).length = cs.length := by
  induction cs with
  | nil => intro i; simp [keysAux]
  | cons c t ih => intro i; simp [keysAux, ih]

theorem panelsAux_eq_map (activeTabKey : String) :
    ∀ (i : Nat) (children : List (Option Child)),
      panelsAux activeTabKey i children =
        (keysAux i children).map (mkPanel activeTabKey) := by
  intro i children
  induction children generalizing i with
  | nil => simp [panelsAux, keysAux]
  | cons c rest ih =>
    cases c with
    | none => simp [panelsAux, keysAux, ih]
    | some c => simp [panelsAux, keysAux, ih]

theorem tabsAux_map_some (activeTabKey : String) :
    ∀ (cs : List Child) (tks : List String) (i : Nat),
      (∀ j : Nat, tks[i + j]? = cs[j]?.map (fun c => childKey c (i + j))) →
      tabsAux activeTabKey tks i (cs.map some) =
        (keysAux i (cs.map some)).map (fun k => mkTab activeTabKey (some k)) := by
  intro cs
  induction cs with
  | nil => intro tks i H; simp [tabsAux, keysAux]
  | cons c t ih =>
    intro tks i H
    have h0 : tks[i]? = some (childKey c i) := by
      have := H 0
      simpa using this
    have Ht : ∀ j : Nat, tks[i + 1 + j]? =
        t[j]?.map (fun c => childKey c (i + 1 + j)) := by
      intro j
      have := H (j + 1)
      have harith : i + (j + 1) = i + 1 + j := by omega
      rw [harith] at this
      simpa using this
    simp only [List.map_cons, tabsAux, keysAux, h0, ih tks (i + 1) Ht]

theorem renderTabs_map_some (activeTabKey : String) (cs : List Child) :
    renderTabs activeTabKey (cs.map some) =
      (tabKeys (cs.map some)).map (fun k => mkTab activeTabKey (some k)) := by
  unfold renderTabs tabKeys
  apply tabsAux_map_some
  intro j
  have := keysAux_map_some_getElem? cs 0 j
  simpa using this

theorem countP_beq_eq_one :
    ∀ (l : List String) (a : String), l.Nodup → a ∈ l →
      l.countP (fun k => k == a) = 1 := by
  intro l a nd ha
  induction l with
  | nil => cases ha
  | cons b t ih =>
    rw [List.countP_cons]
    rcases List.mem_cons.mp ha with rfl | hmem
    · have hbt : a ∉ t := (List.nodup_cons.mp nd).1
      have : t.countP (fun k => k == a) = 0 := by
        rw [List.countP_eq_zero]
        intro x hx
        simp only [beq_iff_eq]
        intro hxa
        exact hbt (hxa ▸ hx)
      simp [this]
    · have hne : ¬(b == a) = true := by
        simp only [beq_iff_eq]
        intro hba
        exact (List.nodup_cons.mp nd).1 (hba ▸ hmem)
      have ht : t.countP (fun k => k == a) = 1 :=
        ih ((List.nodup_cons.mp nd).2) hmem
      simp [ht, hne]

theorem countP_beq_eq_zero :
    ∀ (l : List String) (a : String), a ∉ l →
      l.countP (fun k => k == a) = 0 := by
  intro l a ha
  rw [List.countP_eq_zero]
  intro x hx
  simp only [beq_iff_eq]
  intro hxa
  exact ha (hxa ▸ hx)

theorem mem_tabsAux (activeTabKey : String) (tks : List String) :
    ∀ (children : List (Option Child)) (i : Nat) (t : RenderedTab),
      t ∈ tabsAux activeTabKey tks i children →
      ∃ k, t = mkTab activeTabKey k := by
  intro children
  induction children with
  | nil => intro i t ht; simp [tabsAux] at ht
  | cons c rest ih =>
    intro i t ht
    cases c with
    | none => exact ih (i + 1) t (by simpa [tabsAux] using ht)
    | some c =>
      rw [tabsAux] at ht
      rcases List.mem_cons.mp ht with rfl | h
      · exact ⟨tks[i]?, rfl⟩
      · exact ih (i + 1) t h

theorem mkTab_tabIndex (activeTabKey : String) (k : Option String) :
    (mkTab activeTabKey k).tabIndex =
      if k == some activeTabKey then "0" else "-1" := by
  cases k <;> rfl

-- Claim C5

/-- Claim C5, counterexample: with the orientation+direction-specific entry
defined but falsy (the empty string) and the orientation-only entry truthy,
the `helper` of the source skips the empty string (JS `||` keeps falling
through falsy values), so it does NOT return the first defined value of the
precedence chain. -/
theorem c5_counterexample :
    helper "horizontal" "ltr" falsySpecificMap = .str "x" ∧
    helperFirstDefined "horizontal" "ltr" falsySpecificMap = .str "" ∧
    helper "horizontal" "ltr" falsySpecificMap ≠
      helperFirstDefined "horizontal" "ltr" falsySpecificMap := by
  refine ⟨by decide, by decide, by decide⟩

/-- Claim C5, amended: for every orientation/direction pair and every
variant mapping, `helper` returns the first TRUTHY value (JS `||`
semantics, so defined-but-falsy entries are skipped) of the fixed precedence
chain — orientation+direction-specific entry, then orientation-only, then
direction-only — and `null` when none is truthy. -/
theorem c5_amended :
    ∀ (orientation direction : String) (results : VariantMap),
      helper orientation direction results =
        firstTruthy (precedenceChain orientation direction results) := by
  intro orientation direction results
  unfold helper precedenceChain
  split_ifs <;> simp [firstTruthy, jsOr]

-- Claim C6

/-- Claim C6, confirmed: the accent indicator's distance is
`-(parent scrollWidth - active tab offsetLeft - active tab clientWidth)` in
horizontal RTL mode, the active tab's `offsetLeft` in horizontal non-RTL
mode, and the active tab's `offsetTop` in vertical mode. -/
theorem c6_accent_distance :
    ∀ (m : TabMeasurements) (direction : String),
      (computeAccentLayout "horizontal" "rtl" m).distance =
        -(m.parentScrollWidth - m.offsetLeft - m.clientWidth) ∧
      (direction ≠ "rtl" →
        (computeAccentLayout "horizontal" direction m).distance =
          m.offsetLeft) ∧
      (computeAccentLayout "vertical" direction m).distance = m.offsetTop := by
  intro m direction
  refine ⟨?_, ?_, ?_⟩
  · simp [computeAccentLayout]
  · intro hd
    simp [computeAccentLayout, hd]
  · simp [computeAccentLayout]

/-- Claim C6, witness: the theorem applied at concrete measurements and the
direction "ltr". -/
theorem c6_accent_distance_witness :
    ("ltr" : String) ≠ "rtl" ∧
    (computeAccentLayout "horizontal" "ltr"
      ⟨80, 30, 100, 40, 500⟩).distance = 100 ∧
    (computeAccentLayout "horizontal" "rtl"
      ⟨80, 30, 100, 40, 500⟩).distance = -(500 - 100 - 80) := by
  refine ⟨by decide, ?_, ?_⟩
  · exact (c6_accent_distance ⟨80, 30, 100, 40, 500⟩ "ltr").2.1 (by decide)
  · exact (c6_accent_distance ⟨80, 30, 100, 40, 500⟩ "ltr").1

-- Claim C8

/-- Claim C8, confirmed: when the active tab ref is not resolvable the
accent layout effect leaves the `{length, distance}` state unchanged, and
the initial state before any successful measurement is
`{length := 0, distance := 0}`. -/
theorem c8_skip_measurement :
    ∀ (orientation direction : String) (prev : AccentLayout),
      accentEffect orientation direction none prev = prev ∧
      initialAccentLayout.length = 0 ∧
      initialAccentLayout.distance = 0 := by
  intro orientation direction prev
  exact ⟨rfl, rfl, rfl⟩

-- Claim C7

/-- Claim C7, confirmed: for every list of tabs with pairwise-distinct
resolved keys in which some tab's key equals `activeTabKey`, exactly one
rendered panel has `aria-expanded=true` and is not hidden — the one whose id
is `tabpanel_<activeTabKey>` — and every other panel has
`aria-expanded=false` and the `hidden` attribute set. -/
theorem c7_one_expanded_panel :
    ∀ (activeTabKey : String) (children : List (Option Child)),
      (tabKeys children).Nodup → activeTabKey ∈ tabKeys children →
      (renderPanels activeTabKey children).countP
          (fun p => p.ariaExpanded && !p.hidden) = 1 ∧
      ∀ p ∈ renderPanels activeTabKey children,
        (p.ariaExpanded = true ∧ p.hidden = false ∧
          p.id = getTabPanelId activeTabKey) ∨
        (p.ariaExpanded = false ∧ p.hidden = true) := by
  intro a children nd ha
  constructor
  · rw [renderPanels, panelsAux_eq_map, List.countP_map]
    have hcomp : ((fun p => p.ariaExpanded && !p.hidden) ∘ mkPanel a) =
        (fun k => k == a) := by
      funext k
      simp [mkPanel, Function.comp]
    rw [hcomp]
    exact countP_beq_eq_one _ _ nd ha
  · intro p hp
    rw [renderPanels, panelsAux_eq_map] at hp
    obtain ⟨k, hk, rfl⟩ := List.mem_map.mp hp
    by_cases h : k = a
    · subst h
      left
      simp [mkPanel]
    · right
      simp [mkPanel, h]

/-- Claim C7, witness: the spec's example, tabs keyed "0", "1", "2" with
`activeTabKey = "1"`. -/
theorem c7_one_expanded_panel_witness :
    (tabKeys (threeChildren.map some)).Nodup ∧
    "1" ∈ tabKeys (threeChildren.map some) ∧
    (renderPanels "1" (threeChildren.map some)).countP
      (fun p => p.ariaExpanded && !p.hidden) = 1 := by
  refine ⟨by decide, by decide, ?_⟩
  exact (c7_one_expanded_panel "1" (threeChildren.map some)
    (by decide) (by decide)).1

-- Claim C9

/-- Claim C9, confirmed: every rendered tab has `tabindex` "0" exactly when
its key equals `activeTabKey` and "-1" otherwise; with all-truthy children
and pairwise-distinct resolved keys, exactly one tab has `tabindex` "0" when
some key matches `activeTabKey`, and when no key matches, no tab has
`tabindex` "0", no tab has `aria-selected=true`, and all tabs are still
rendered. -/
theorem c9_roving_tabindex :
    ∀ (activeTabKey : String) (children : List (Option Child))
      (cs : List Child),
      (∀ t ∈ renderTabs activeTabKey children,
        t.tabIndex = if t.key == some activeTabKey then "0" else "-1") ∧
      ((tabKeys (cs.map some)).Nodup →
        activeTabKey ∈ tabKeys (cs.map some) →
        (renderTabs activeTabKey (cs.map some)).countP
          (fun t => t.tabIndex == "0") = 1) ∧
      (activeTabKey ∉ tabKeys (cs.map some) →
        (renderTabs activeTabKey (cs.map some)).countP
          (fun t => t.tabIndex == "0") = 0 ∧
        (∀ t ∈ renderTabs activeTabKey (cs.map some),
          t.ariaSelected = false) ∧
        (renderTabs activeTabKey (cs.map some)).length = cs.length) := by
  intro a children cs
  have hcomp : ((fun t => t.tabIndex == "0") ∘ fun k => mkTab a (some k)) =
      (fun k => k == a) := by
    funext k
    simp only [Function.comp, mkTab_tabIndex]
    cases h : (some k == some a) with
    | true =>
      simp only [if_pos rfl, h]
      simpa using h
    | false =>
      rw [if_neg (by simp [h])]
      rw [show (("-1" : String) == "0") = false from by decide]
      simpa using h.symm
  refine ⟨?_, ?_, ?_⟩
  · intro t ht
    rw [renderTabs] at ht
    obtain ⟨k, rfl⟩ := mem_tabsAux a (tabKeys children) children 0 t ht
    exact mkTab_tabIndex a k
  · intro nd ha
    rw [renderTabs_map_some, List.countP_map, hcomp]
    exact countP_beq_eq_one _ _ nd ha
  · intro ha
    refine ⟨?_, ?_, ?_⟩
    · rw [renderTabs_map_some, List.countP_map, hcomp]
      exact countP_beq_eq_zero _ _ ha
    · intro t ht
      rw [renderTabs_map_some] at ht
      obtain ⟨k, hk, rfl⟩ := List.mem_map.mp ht
      simp only [mkTab, beq_iff_eq]
      rw [beq_eq_false_iff_ne]
      exact fun hka => ha (hka ▸ hk)
    · rw [renderTabs_map_some, List.length_map, tabKeys,
        keysAux_map_some_length]

/-- Claim C9, witness: tabs keyed "0", "1", "2"; `activeTabKey = "1"` gives
exactly one focusable tab, the out-of-range `activeTabKey = "9"` gives
none. -/
theorem c9_roving_tabindex_witness :
    (tabKeys (threeChildren.map some)).Nodup ∧
    "1" ∈ tabKeys (threeChildren.map some) ∧
    "9" ∉ tabKeys (threeChildren.map some) ∧
    (renderTabs "1" (threeChildren.map some)).countP
      (fun t => t.tabIndex == "0") = 1 ∧
    (renderTabs "9" (threeChildren.map some)).countP
      (fun t => t.tabIndex == "0") = 0 := by
  refine ⟨by decide, by decide, by decide, ?_, ?_⟩
  · exact (c9_roving_tabindex "1" (threeChildren.map some)
      threeChildren).2.1 (by decide) (by decide)
  · exact ((c9_roving_tabindex "9" (threeChildren.map some)
      threeChildren).2.2 (by decide)).1

-- Claim C1

/-- Claim C1, counterexample: with exactly one tab (key "a") and
`keyboardActivation = 'automatic'`, pressing ArrowLeft (keyCode 37) leaves
focus on the same tab but DOES invoke `onSelect` — with that same tab's key
— because the handler calls `onSelect` unconditionally in automatic mode
after the (self-)focus step. -/
theorem c1_counterexample :
    (keydown "automatic" [singleChild] 0 37).focusedIndex = some 0 ∧
    (keydown "automatic" [singleChild] 0 37).selected = some (some "a") ∧
    (keydown "automatic" [singleChild] 0 37).selected ≠ none := by
  refine ⟨by decide, by decide, by decide⟩

/-- Claim C1, amended: with exactly one tab, an arrow-navigation key press
(keyCode 37 or 39) leaves focus on the same tab; in `manual` mode no
callback fires, but in `automatic` mode `onSelect` is invoked with the same
tab's key. -/
theorem c1_single_tab :
    ∀ (c : Child) (keyboardActivation : String) (keyCode : Nat),
      keyCode = 37 ∨ keyCode = 39 →
      (keydown keyboardActivation [c] 0 keyCode).focusedIndex = some 0 ∧
      (keydown "manual" [c] 0 keyCode).selected = none ∧
      (keydown "automatic" [c] 0 keyCode).selected =
        some (some (childKey c 0)) := by
  intro c keyboardActivation keyCode hk
  rcases hk with rfl | rfl
  · refine ⟨rfl, ?_, rfl⟩
    simp [keydown]
  · refine ⟨rfl, ?_, rfl⟩
    simp [keydown]

/-- Claim C1, witness: the amended theorem at the single tab keyed "a" and
keyCode 37. -/
theorem c1_single_tab_witness :
    (37 = 37 ∨ 37 = 39) ∧
    (keydown "manual" [singleChild] 0 37).selected = none ∧
    (keydown "automatic" [singleChild] 0 37).selected = some (some "a") := by
  refine ⟨Or.inl rfl, ?_, ?_⟩
  · exact (c1_single_tab singleChild "manual" 37 (Or.inl rfl)).2.1
  · exact (c1_single_tab singleChild "manual" 37 (Or.inl rfl)).2.2

-- Claim C2

/-- Claim C2, code-bug evidence: the handler checks only keyCodes 37/39
(ArrowLeft/ArrowRight) and never reads the orientation, so with two tabs the
vertical-axis keys ArrowUp (38) and ArrowDown (40) neither move focus nor
fire a callback — in any orientation — while 39 and 37 do move focus.  The
source's own comments describe the branches as covering the vertical arrows
and a TODO admits the orientation-specific keyCodes are missing. -/
theorem c2_arrow_keycodes :
    keydown "automatic" twoChildren 0 38 = ⟨none, none⟩ ∧
    keydown "automatic" twoChildren 0 40 = ⟨none, none⟩ ∧
    (keydown "automatic" twoChildren 0 39).focusedIndex = some 1 ∧
    (keydown "automatic" twoChildren 1 37).focusedIndex = some 0 := by
  refine ⟨by decide, by decide, by decide, by decide⟩

-- Claim C3

/-- Claim C3, confirmed: for every list of at least two (truthy) tabs,
pressing the next-arrow key (keyCode 39) on the last tab moves focus to the
first tab, and pressing the previous-arrow key (keyCode 37) on the first
tab moves focus to the last tab. -/
theorem c3_circular_wrap :
    ∀ (keyboardActivation : String) (cs : List Child),
      2 ≤ cs.length →
      (keydown keyboardActivation cs (cs.length - 1) 39).focusedIndex =
        some 0 ∧
      (keydown keyboardActivation cs 0 37).focusedIndex =
        some (cs.length - 1) := by
  intro keyboardActivation cs h
  have h1 : ¬(cs.length - 1 + 1 < cs.length) := by omega
  constructor
  · simp [keydown, nextActiveIndex, h1]
  · simp [keydown, nextActiveIndex]

/-- Claim C3, witness: the theorem at the two tabs keyed "a", "b". -/
theorem c3_circular_wrap_witness :
    2 ≤ twoChildren.length ∧
    (keydown "manual" twoChildren (twoChildren.length - 1) 39).focusedIndex =
      some 0 ∧
    (keydown "manual" twoChildren 0 37).focusedIndex =
      some (twoChildren.length - 1) := by
  refine ⟨by decide, ?_, ?_⟩
  · exact (c3_circular_wrap "manual" twoChildren (by decide)).1
  · exact (c3_circular_wrap "manual" twoChildren (by decide)).2

-- Claim C4

theorem tabKeys_map_some_getElem? (cs : List Child) (j : Nat) :
    (tabKeys (cs.map some))[j]? = cs[j]?.map (fun c => childKey c j) := by
  have := keysAux_map_some_getElem? cs 0 j
  simpa [tabKeys] using this

/-- Claim C4, confirmed: for a handled arrow key (keyCode 37 or 39), in
`automatic` mode the handler invokes `onSelect` once with
`{selectedTabKey: <key of the newly focused tab>}` (the resolved key of the
child at `nextActiveIndex`), while in `manual` mode it invokes no callback;
focus moves to `nextActiveIndex` in both modes. -/
theorem c4_keyboard_activation :
    ∀ (cs : List Child) (i keyCode : Nat) (keyboardActivation : String),
      keyCode = 37 ∨ keyCode = 39 →
      (keydown "automatic" cs i keyCode).selected =
        some (cs[nextActiveIndex keyCode cs.length i]?.map
          (fun c => childKey c (nextActiveIndex keyCode cs.length i))) ∧
      (keydown "manual" cs i keyCode).selected = none ∧
      (keydown keyboardActivation cs i keyCode).focusedIndex =
        some (nextActiveIndex keyCode cs.length i) := by
  intro cs i keyCode keyboardActivation hk
  have hcond : (keyCode == 37 || keyCode == 39) = true := by
    rcases hk with rfl | rfl <;> decide
  refine ⟨?_, ?_, ?_⟩
  · simp [keydown, hcond, tabKeys_map_some_getElem?]
  · simp [keydown, hcond]
  · simp [keydown, hcond]

/-- Claim C4, witness: pressing ArrowRight on the first of the two tabs
keyed "a", "b" selects key "b" in automatic mode and nothing in manual
mode. -/
theorem c4_keyboard_activation_witness :
    (39 = 37 ∨ 39 = 39) ∧
    (keydown "automatic" twoChildren 0 39).selected = some (some "b") ∧
    (keydown "manual" twoChildren 0 39).selected = none := by
  refine ⟨Or.inr rfl, ?_, ?_⟩
  · exact (c4_keyboard_activation twoChildren 0 39 "manual" (Or.inr rfl)).1
  · exact (c4_keyboard_activation twoChildren 0 39 "manual" (Or.inr rfl)).2.1

-- Claim C10

theorem keysAux_keyless :
    ∀ (cs : List Child), (∀ c ∈ cs, c.key = none) →
      ∀ i, keysAux i (cs.map some) =
        (List.range' i cs.length).map toString := by
  intro cs
  induction cs with
  | nil => intro h i; simp [keysAux]
  | cons c t ih =>
    intro h i
    have hc : c.key = none := h c (by simp)
    have ht : ∀ c ∈ t, c.key = none :=
      fun c hc' => h c (List.mem_cons_of_mem _ hc')
    rw [List.map_cons, keysAux, ih ht (i + 1), List.length_cons,
      List.range'_succ, List.map_cons, childKey, hc]

/-- Claim C10, counterexample: with a falsy child followed by a keyless
child, the panel pass derives the key "1" (the child's index among all
children), but `React.Children.map` drops the `null` result for the falsy
child from `tabKeys`, so the tab pass's lookup `tabKeys[1]` is `undefined`:
the rendered tab gets id `tab_undefined` and `aria-controls`
`tabpanel_undefined`, while its panel's id is `tabpanel_1` — the derived key
is NOT used consistently across tab id, panel id and `aria-controls`. -/
theorem c10_counterexample :
    (renderTabs "1" mixedChildren).map (fun t => t.id) = ["tab_undefined"] ∧
    (renderTabs "1" mixedChildren).map (fun t => t.ariaControls) =
      ["tabpanel_undefined"] ∧
    (renderPanels "1" mixedChildren).map (fun p => p.id) = ["tabpanel_1"] ∧
    ("tabpanel_undefined" : String) ≠ "tabpanel_1" := by
  refine ⟨by decide, by decide, by decide, by decide⟩

/-- Claim C10, amended: when all children are truthy and keyless, each
child's key is derived as the decimal string of its position index, the
default `activeTabKey = "0"` marks the first child active, and the derived
key is used consistently for the tab id, the panel id, the `aria-controls`
link and the keyboard-activation callback value (with falsy children
present, the compacted `tabKeys` array misaligns with child indices and the
tab-side lookups no longer match the panel ids). -/
theorem c10_keyless_truthy :
    ∀ (cs : List Child), (∀ c ∈ cs, c.key = none) →
      tabKeys (cs.map some) = (List.range cs.length).map toString ∧
      renderTabs "0" (cs.map some) =
        (List.range cs.length).map (fun i => mkTab "0" (some (toString i))) ∧
      renderPanels "0" (cs.map some) =
        (List.range cs.length).map (fun i => mkPanel "0" (toString i)) ∧
      (0 < cs.length →
        ((renderTabs "0" (cs.map some)).head?.map fun t => t.ariaSelected) =
          some true) ∧
      (∀ i keyCode : Nat, keyCode = 37 ∨ keyCode = 39 →
        (keydown "automatic" cs i keyCode).selected =
          some (((List.range cs.length).map
            toString)[nextActiveIndex keyCode cs.length i]?)) := by
  intro cs h
  have hkeys : tabKeys (cs.map some) = (List.range cs.length).map toString := by
    rw [tabKeys, keysAux_keyless cs h 0, List.range_eq_range']
  have htabs : renderTabs "0" (cs.map some) =
      (List.range cs.length).map (fun i => mkTab "0" (some (toString i))) := by
    rw [renderTabs_map_some, hkeys, List.map_map]
    rfl
  refine ⟨hkeys, htabs, ?_, ?_, ?_⟩
  · rw [renderPanels, panelsAux_eq_map]
    show (tabKeys (cs.map some)).map (mkPanel "0") = _
    rw [hkeys, List.map_map]
    rfl
  · intro hlen
    obtain ⟨m, hm⟩ : ∃ m, cs.length = m + 1 := ⟨cs.length - 1, by omega⟩
    rw [htabs, hm, List.range_succ_eq_map]
    rfl
  · intro i keyCode hk
    have hcond : (keyCode == 37 || keyCode == 39) = true := by
      rcases hk with rfl | rfl <;> decide
    simp [keydown, hcond, hkeys]

/-- Claim C10, witness: the amended theorem at two keyless children — keys
"0" and "1" are derived from the indices and the first child is active under
the default `activeTabKey = "0"`. -/
theorem c10_keyless_truthy_witness :
    (∀ c ∈ twoKeyless, c.key = none) ∧
    tabKeys (twoKeyless.map some) = ["0", "1"] ∧
    ((renderTabs "0" (twoKeyless.map some)).head?.map fun t => t.ariaSelected) =
      some true := by
  refine ⟨by decide, ?_, ?_⟩
  · rw [(c10_keyless_truthy twoKeyless (by decide)).1]
    decide
  · exact (c10_keyless_truthy twoKeyless (by decide)).2.2.2.1 (by decide)

end TabsMotion
